import Mathlib

/-!
Shallow embedding of `src/server.py` (weather-radar-system-backend).

The program is a small Flask server with one durable artifact (the file
`radar.png`) and a discovery–retrieval–decode–render pipeline:

* `try_fetch_latest_file` (Frame Locator): scans minute offsets
  `range(0, 240, 2)` back from `utcnow()`, and within each offset the three
  `BASE_PATHS` in order, issuing a HEAD request per candidate URL and
  returning the first URL whose status is exactly 200, else `None`.
* `get_bounds_from_dataset` (Bounds Resolver): first latitude alias and first
  longitude alias found among the dataset coordinates; fallback
  `[25.0, -125.0, 50.0, -65.0]` when either is missing.
* `pick_reflectivity_var`: first data variable whose lowercased name contains
  the substring "reflect", else the first data variable.
* `generate_image_from_grib` (Rasterizer): decodes the payload, picks the
  variable, computes bounds, and writes the PNG via
  `plt.imshow(..., cmap="turbo", vmin=-32, vmax=75)` + `plt.savefig`.
* `latest_meta` / `latest_image`: the two HTTP handlers; `latest_meta` runs
  the pipeline inside a `try/except`, `latest_image` serves the artifact or
  the "not yet generated" error.

Modelling conventions: machine floats in coordinate arrays and field values
become `ℚ` (NaN/inf never reach the compared paths: coordinates are finite in
every decoded grid, and the clamp claim is about finite values); the network
and the external libraries (requests / gzip / cfgrib / matplotlib's file
write) become an explicit environment `Env` of response functions; the one
piece of durable state (the `radar.png` bytes) is threaded explicitly as
`Option (List ℕ)` (`none` = file absent).  A candidate URL is represented by
the pair `(minute_offset, base_index)`; within one 4-hour probe run the
filename template maps distinct pairs to distinct URLs, so a probe is a
function of that pair.
-/

/-- BASE_PATHS from server.py lines 14-18: the fixed ordered list of candidate
storage roots. -/
def basePaths : List String :=
  ["https://noaa-mrms-pds.s3.amazonaws.com/MRMS/ReflectivityAtLowestAltitude/00.50",
   "https://noaa-mrms-pds.s3.amazonaws.com/MRMS/ReflectivityAtLowestAltitude",
   "https://noaa-mrms-pds.s3.amazonaws.com/MRMS/RadarOnly/CONUS/00.50"]

/-- Python `range(0, 240, 2)` from line 62: the minute offsets tried, newest
first (offset 0 is "now", larger offsets are older). -/
def offsets : List ℕ := List.range' 0 120 2

/-- The full scan order of the two nested loops in `try_fetch_latest_file`
(lines 62-71): outer loop over minute offsets (newest first), inner loop over
the base-path indices in configured priority order. -/
def scanOrder : List (ℕ × ℕ) :=
  offsets.flatMap (fun off => (List.range basePaths.length).map (fun b => (off, b)))

/-- The existence probe of lines 68-69: `requests.head(url)` followed by
`r.status_code == 200`.  `st` gives the HEAD status per candidate. -/
def headOk (st : ℕ × ℕ → ℕ) : ℕ × ℕ → Bool := fun c => st c == 200

/-- `try_fetch_latest_file` (lines 59-72): return the first candidate in scan
order whose probe hits, else `none`.  The nested `for` loops with an early
`return` are exactly `find?` over the lexicographically ordered product. -/
def try_fetch_latest_file (probe : ℕ × ℕ → Bool) : Option (ℕ × ℕ) :=
  scanOrder.find? probe

/-- Timestamp (seconds since epoch) of the candidate at minute offset `off`
when the run starts at `now`: line 63, `dt = now - timedelta(minutes=off)`. -/
def candTimestamp (now off : ℕ) : ℕ := now - off * 60

/-- The `%M` field that `dt.strftime('%Y%m%d-%H%M00')` (line 64) embeds in the
candidate filename: minute-of-hour of a UTC instant given in epoch seconds.
(The seconds field of the filename is the literal "00" from the template.) -/
def fnameMinute (t : ℕ) : ℕ := t / 60 % 60

/-- DecodedGrid: what the pipeline reads off an `xarray` dataset — the ordered
data-variable names and the coordinate arrays keyed by name. -/
structure Dataset where
  data_vars : List String
  coords : List (String × List ℚ)
deriving DecidableEq

/-- Lowercasing as in Python's `str.lower()` (ASCII-relevant here): lowercase
every character. -/
def lowerStr (s : String) : String := String.mk (s.data.map Char.toLower)

/-- Needle matches at the head of the haystack. -/
def segAt : List Char → List Char → Bool
  | [], _ => true
  | _ :: _, [] => false
  | a :: as, b :: bs => (a == b) && segAt as bs

/-- Substring containment on char lists, Python's `needle in hay`. -/
def hasSeg (needle : List Char) : List Char → Bool
  | [] => segAt needle []
  | b :: bs => segAt needle (b :: bs) || hasSeg needle bs

/-- Python `"reflect" in v.lower()` (line 22). -/
def hasReflect (v : String) : Bool := hasSeg "reflect".data (lowerStr v).data

/-- `pick_reflectivity_var` (lines 20-24): first data variable whose lowercased
name contains "reflect"; else the first data variable (`list(ds.data_vars)[0]`,
which raises on an empty dataset — modelled as `none`). -/
def pick_reflectivity_var (ds : Dataset) : Option String :=
  match ds.data_vars.find? hasReflect with
  | some v => some v
  | none => ds.data_vars.head?

/-- Latitude aliases, line 29 tuple, in source order. -/
def latAliases : List String := ["latitude", "lat", "Latitude", "LATITUDE"]

/-- Longitude aliases, line 33 tuple, in source order. -/
def lonAliases : List String := ["longitude", "lon", "Longitude", "LONGITUDE"]

/-- The alias loop of lines 29-36: first alias present in `coords` wins
(`if name in ds.coords: ... break`). -/
def lookupFirst (coords : List (String × List ℚ)) (names : List String) :
    Option (List ℚ) :=
  names.findSome? (fun n => coords.lookup n)

/-- `np.min` over a nonempty array (the empty case never occurs on the paths
the claims quantify over; 0 is an unused placeholder). -/
def npMin : List ℚ → ℚ
  | [] => 0
  | x :: xs => xs.foldl min x

/-- `np.max` over a nonempty array (same placeholder convention). -/
def npMax : List ℚ → ℚ
  | [] => 0
  | x :: xs => xs.foldl max x

/-- The fallback GeoBounds of line 38. -/
def fallbackBounds : List ℚ := [25, -125, 50, -65]

/-- `get_bounds_from_dataset` (lines 27-39): resolve each axis by its alias
list; if either is absent return the fallback, else
`[min lat, min lon, max lat, max lon]`. -/
def get_bounds_from_dataset (ds : Dataset) : List ℚ :=
  match lookupFirst ds.coords latAliases, lookupFirst ds.coords lonAliases with
  | some la, some lo => [npMin la, npMin lo, npMax la, npMax lo]
  | _, _ => fallbackBounds

/-- `vmin` of the `plt.imshow` call, line 51. -/
def vminQ : ℚ := -32

/-- `vmax` of the `plt.imshow` call, line 51. -/
def vmaxQ : ℚ := 75

/-- Modelled from the spec: the value-to-color normalization performed inside
matplotlib by `imshow(..., vmin=-32, vmax=75)` is not code under `src/` — per
the spec's clamping rule, values are mapped affinely onto `[0, 1]` and values
outside the `[vmin, vmax]` domain are clamped to the nearest endpoint before
the colormap lookup. -/
def normClamp (v : ℚ) : ℚ := max 0 (min 1 ((v - vminQ) / (vmaxQ - vminQ)))

/-- Pixel color of a finite field value: colormap applied to the clamped
normalized value (`cmap` abstracts the fixed "turbo" colormap table). -/
def pixelColor {γ : Type} (cmap : ℚ → γ) (v : ℚ) : γ := cmap (normClamp v)

/-- Environment of one `latest_meta` run: everything outside the process —
HEAD statuses per candidate, the GET status and body for the located URL, and
the behavior of the external decompress / decode / file-write calls (`none`
models the library raising, which the handler's `except` turns into an error
response). -/
structure Env where
  headStatus : ℕ × ℕ → ℕ
  getStatus : ℕ
  body : List ℕ
  gunzip : List ℕ → Option (List ℕ)
  decode : List ℕ → Option Dataset
  savefigOk : Bool
  png : Dataset → List ℕ

/-- Success payload of `latest_meta` (line 90): the bounds and the located
URL (the timestamp field is omitted; no claim concerns it). -/
structure Meta where
  bounds : List ℚ
  file : ℕ × ℕ
deriving DecidableEq

/-- Error string of line 80. -/
def notFoundMsg : String := "No recent MRMS files found (checked multiple folders)"

/-- Error string of line 84, parameterized by the GET status. -/
def fetchFailedMsg (s : ℕ) : String :=
  "Failed to fetch GRIB2 (HTTP " ++ toString s ++ ")"

/-- Message standing for `str(e)` of a `gzip.decompress` failure (line 86);
its exact text comes from the Python exception, not from `src/`. -/
def decompressFailedMsg : String := "DecompressFailed"

/-- Message standing for `str(e)` of a cfgrib decode failure (line 43). -/
def decodeFailedMsg : String := "DecodeFailed"

/-- Message standing for `str(e)` of `list(ds.data_vars)[0]` on an empty
dataset (line 24). -/
def noVarsMsg : String := "IndexError: list index out of range"

/-- Message standing for `str(e)` of a `plt.savefig` failure (line 54). -/
def renderFailedMsg : String := "RenderFailed"

/-- `generate_image_from_grib` (lines 42-56) applied to the decompressed
payload, threading the durable artifact: decode, pick the variable, compute
bounds, then write the PNG.  Each failure raises; the artifact changes only
when the `savefig` write happens. -/
def generate_image_from_grib (env : Env) (payload : List ℕ)
    (file : Option (List ℕ)) : Except String (List ℚ) × Option (List ℕ) :=
  match env.decode payload with
  | none => (Except.error decodeFailedMsg, file)
  | some ds =>
    match pick_reflectivity_var ds with
    | none => (Except.error noVarsMsg, file)
    | some _ =>
      if env.savefigOk then (Except.ok (get_bounds_from_dataset ds), some (env.png ds))
      else (Except.error renderFailedMsg, file)

/-- `latest_meta` (lines 75-94): locate, fetch, decompress, render; any step's
failure is returned as the error response (the `except` of line 92), with the
artifact in whatever state the run left it. -/
def latest_meta (env : Env) (file : Option (List ℕ)) :
    Except String Meta × Option (List ℕ) :=
  match try_fetch_latest_file (headOk env.headStatus) with
  | none => (Except.error notFoundMsg, file)
  | some url =>
    if env.getStatus ≠ 200 then (Except.error (fetchFailedMsg env.getStatus), file)
    else
      match env.gunzip env.body with
      | none => (Except.error decompressFailedMsg, file)
      | some payload =>
        match generate_image_from_grib env payload file with
        | (Except.error e, f) => (Except.error e, f)
        | (Except.ok bounds, f) => (Except.ok ⟨bounds, url⟩, f)

/-- Error string of line 100. -/
def notYetMsg : String := "Image not yet generated. Call /latest-meta first."

/-- `latest_image` (lines 97-101): the artifact-fetch handler — serve the
bytes if the file exists, else the "not yet generated" error. -/
def latest_image (file : Option (List ℕ)) : Except String (List ℕ) :=
  match file with
  | none => Except.error notYetMsg
  | some b => Except.ok b

/-- One pipeline run as a transition on the durable artifact. -/
def runStep (file : Option (List ℕ)) (e : Env) : Option (List ℕ) :=
  (latest_meta e file).2

/-- Artifact state after a sequence of runs from process start (cold start:
no file). -/
def runAll (envs : List Env) : Option (List ℕ) := List.foldl runStep none envs

/-- Whether a run's response is a success (the response does not depend on the
prior artifact state, proved below). -/
def runOk (e : Env) : Bool :=
  match (latest_meta e none).1 with
  | Except.ok _ => true
  | Except.error _ => false

/-- Scan-order comparison: `c` comes strictly before `d` in the nested loops —
a newer timestamp (smaller minute offset), or the same timestamp and a
higher-priority (smaller-index) base path. -/
def scanLT (c d : ℕ × ℕ) : Prop := c.1 < d.1 ∨ (c.1 = d.1 ∧ c.2 < d.2)

/-! ## Concrete sample inputs (used by witnesses and counterexamples) -/

/-- Probe with hits at offsets 4 and 6 only (the spec's `{T-4, T-6}` example):
offset 4 exists at base index 1, offset 6 at base index 0. -/
def probeW : ℕ × ℕ → Bool :=
  fun c => (c.1 == 4 && c.2 == 1) || (c.1 == 6 && c.2 == 0)

/-- HEAD statuses with a redirect at `(0,0)`, a 204 at `(0,1)`, a hit only at
`(4,1)`, and 404 elsewhere. -/
def stW : ℕ × ℕ → ℕ :=
  fun c =>
    if c = (0, 0) then 302
    else if c = (0, 1) then 204
    else if c = (4, 1) then 200
    else 404

/-- Dataset whose real coordinates coincidentally span the fallback box. -/
def dsCoincide : Dataset :=
  ⟨["unknown"], [("latitude", [25, 50]), ("longitude", [-125, -65])]⟩

/-- Dataset with a field but no coordinates at all. -/
def dsNoCoords : Dataset := ⟨["VIL"], []⟩

/-- Dataset with a reflectivity-named field and real CONUS-interior
coordinates. -/
def dsGood : Dataset :=
  ⟨["MockReflectivity"], [("latitude", [30, 40]), ("longitude", [-100, -90])]⟩

/-- Dataset whose second field is the reflectivity-like one. -/
def dsVars : Dataset := ⟨["Temp", "MockReflectivity", "Other"], []⟩

/-- Environment in which every existence probe misses (HEAD always 404). -/
def envFail : Env :=
  ⟨fun _ => 404, 200, [1], fun b => some b, fun _ => none, true, fun _ => []⟩

/-- Environment of a fully successful run: first candidate exists, fetch and
decompress succeed, the payload decodes to `dsGood`, and the write succeeds,
producing the bytes `[137, 80]`. -/
def envGood : Env :=
  ⟨fun _ => 200, 200, [7], fun b => some b, fun _ => some dsGood, true,
   fun _ => [137, 80]⟩

/-! ## Helper lemmas -/

/-- In a `Pairwise R` list, `find?` returns an element that is `R`-before (or
equal to) every other element satisfying the predicate. -/
theorem find_min_of_pairwise {α : Type} {R : α → α → Prop} :
    ∀ (l : List α) (p : α → Bool) (x : α), l.Pairwise R → l.find? p = some x →
      ∀ y ∈ l, p y = true → x = y ∨ R x y := by
  intro l
  induction l with
  | nil => intro p x _ hf; simp [List.find?] at hf
  | cons a t ih =>
    intro p x hpw hf y hy hpy
    rcases List.pairwise_cons.mp hpw with ⟨hfa, hpt⟩
    by_cases hpa : p a
    · have hxa : x = a := by
        rw [List.find?_cons_of_pos t hpa] at hf
        exact (Option.some_inj.mp hf).symm
      subst hxa
      rcases List.mem_cons.mp hy with h | h
      · exact Or.inl h.symm
      · exact Or.inr (hfa y h)
    · rw [List.find?_cons_of_neg t hpa] at hf
      rcases List.mem_cons.mp hy with h | h
      · subst h; exact absurd hpy hpa
      · exact ih p x hpt hf y h hpy

/-- `find?` splits the list at the first hit: everything before fails the
predicate. -/
theorem find_first_split {α : Type} :
    ∀ (l : List α) (p : α → Bool) (v : α), l.find? p = some v →
      ∃ l₁ l₂, l = l₁ ++ v :: l₂ ∧ p v = true ∧ ∀ u ∈ l₁, p u = false := by
  intro l
  induction l with
  | nil => intro p v hf; simp [List.find?] at hf
  | cons a t ih =>
    intro p v hf
    by_cases hpa : p a
    · rw [List.find?_cons_of_pos t hpa] at hf
      refine ⟨[], t, ?_, ?_, ?_⟩
      · rw [Option.some_inj.mp hf]; rfl
      · rw [← Option.some_inj.mp hf]; exact hpa
      · intro u hu; simp at hu
    · rw [List.find?_cons_of_neg t hpa] at hf
      rcases ih p v hf with ⟨l₁, l₂, heq, hpv, hall⟩
      refine ⟨a :: l₁, l₂, by rw [heq]; rfl, hpv, ?_⟩
      intro u hu
      rcases List.mem_cons.mp hu with h | h
      · subst h; exact Bool.eq_false_iff.mpr hpa
      · exact hall u h

/-- The nested loops of `try_fetch_latest_file` enumerate candidates in
strictly increasing `scanLT` order. -/
theorem scanOrder_pairwise : scanOrder.Pairwise scanLT := by
  rw [scanOrder, List.pairwise_flatMap]
  constructor
  · intro off _
    rw [List.pairwise_map]
    exact (List.pairwise_lt_range _).imp (fun h => Or.inr ⟨rfl, h⟩)
  · refine (List.pairwise_lt_range' 0 120 2).imp ?_
    intro o₁ o₂ h x hx y hy
    rcases List.mem_map.mp hx with ⟨b₁, _, hb₁⟩
    rcases List.mem_map.mp hy with ⟨b₂, _, hb₂⟩
    rw [← hb₁, ← hb₂]
    exact Or.inl h

/-- Folding `min` never goes above the initial accumulator. -/
theorem foldl_min_le_init (l : List ℚ) : ∀ a : ℚ, l.foldl min a ≤ a := by
  induction l with
  | nil => intro a; exact le_refl a
  | cons x t ih =>
    intro a
    calc (x :: t).foldl min a = t.foldl min (min a x) := rfl
    _ ≤ min a x := ih (min a x)
    _ ≤ a := min_le_left a x

/-- Folding `max` never goes below the initial accumulator. -/
theorem init_le_foldl_max (l : List ℚ) : ∀ a : ℚ, a ≤ l.foldl max a := by
  induction l with
  | nil => intro a; exact le_refl a
  | cons x t ih =>
    intro a
    calc a ≤ max a x := le_max_left a x
    _ ≤ t.foldl max (max a x) := ih (max a x)
    _ = (x :: t).foldl max a := rfl

/-- On a nonempty array, `np.min` is at most `np.max`. -/
theorem npMin_le_npMax (l : List ℚ) (h : l ≠ []) : npMin l ≤ npMax l := by
  cases l with
  | nil => exact absurd rfl h
  | cons x xs =>
    calc npMin (x :: xs) = xs.foldl min x := rfl
    _ ≤ x := foldl_min_le_init xs x
    _ ≤ xs.foldl max x := init_le_foldl_max xs x
    _ = npMax (x :: xs) := rfl

/-- Values at or below `vmin` normalize to 0. -/
theorem normClamp_below (v : ℚ) (h : v ≤ vminQ) : normClamp v = 0 := by
  have hnum : (v - vminQ) / (vmaxQ - vminQ) ≤ 0 := by
    apply div_nonpos_iff.mpr
    right
    constructor
    · linarith
    · norm_num [vminQ, vmaxQ]
  unfold normClamp
  rw [min_eq_right (le_trans hnum (by norm_num)), max_eq_left hnum]

/-- Values at or above `vmax` normalize to 1. -/
theorem normClamp_above (v : ℚ) (h : vmaxQ ≤ v) : normClamp v = 1 := by
  have hpos : (0 : ℚ) < vmaxQ - vminQ := by norm_num [vminQ, vmaxQ]
  have hnum : 1 ≤ (v - vminQ) / (vmaxQ - vminQ) := by
    rw [one_le_div hpos]
    linarith
  unfold normClamp
  rw [min_eq_left hnum, max_eq_right (by norm_num : (0 : ℚ) ≤ 1)]

/-- The FetchFailed message (line 84) never coincides with the NotFound
message (line 80), whatever the HTTP status: the two failure kinds stay
distinguishable to the caller. -/
theorem fetchFailedMsg_ne_notFound (s : ℕ) : fetchFailedMsg s ≠ notFoundMsg := by
  have key : ∀ t : String,
      ((("Failed to fetch GRIB2 (HTTP " ++ t) ++ ")").data).head? = some 'F' := by
    intro t
    obtain ⟨l⟩ := t
    rfl
  intro h
  have h1 : (fetchFailedMsg s).data.head? = some 'F' := key (toString s)
  rw [h] at h1
  have h2 : notFoundMsg.data.head? = some 'N' := rfl
  rw [h2] at h1
  exact absurd h1 (by decide)

/-- Behavior of one run is decided entirely by the environment: either the run
succeeds — same success response for every prior artifact state, and the
artifact is replaced by the freshly written PNG — or it fails with one fixed
error message and the artifact is left exactly as it was. -/
theorem latest_meta_shape (e : Env) :
    ((∃ m, ∀ f, (latest_meta e f).1 = Except.ok m) ∧
      (∃ ds, ∀ f, (latest_meta e f).2 = some (e.png ds))) ∨
    ((∃ s, ∀ f, (latest_meta e f).1 = Except.error s) ∧
      (∀ f, (latest_meta e f).2 = f)) := by
  cases htf : try_fetch_latest_file (headOk e.headStatus) with
  | none =>
    right
    exact ⟨⟨notFoundMsg, fun f => by simp [latest_meta, htf]⟩,
      fun f => by simp [latest_meta, htf]⟩
  | some url =>
    by_cases hgs : e.getStatus ≠ 200
    · right
      exact ⟨⟨fetchFailedMsg e.getStatus, fun f => by simp [latest_meta, htf, hgs]⟩,
        fun f => by simp [latest_meta, htf, hgs]⟩
    · push_neg at hgs
      cases hgz : e.gunzip e.body with
      | none =>
        right
        exact ⟨⟨decompressFailedMsg, fun f => by simp [latest_meta, htf, hgs, hgz]⟩,
          fun f => by simp [latest_meta, htf, hgs, hgz]⟩
      | some payload =>
        cases hdec : e.decode payload with
        | none =>
          right
          exact ⟨⟨decodeFailedMsg,
            fun f => by simp [latest_meta, generate_image_from_grib, htf, hgs, hgz, hdec]⟩,
            fun f => by simp [latest_meta, generate_image_from_grib, htf, hgs, hgz, hdec]⟩
        | some ds =>
          cases hpv : pick_reflectivity_var ds with
          | none =>
            right
            exact ⟨⟨noVarsMsg,
              fun f => by
                simp [latest_meta, generate_image_from_grib, htf, hgs, hgz, hdec, hpv]⟩,
              fun f => by
                simp [latest_meta, generate_image_from_grib, htf, hgs, hgz, hdec, hpv]⟩
          | some v =>
            by_cases hsf : e.savefigOk
            · left
              exact ⟨⟨⟨get_bounds_from_dataset ds, url⟩,
                fun f => by
                  simp [latest_meta, generate_image_from_grib, htf, hgs, hgz, hdec, hpv, hsf]⟩,
                ⟨ds, fun f => by
                  simp [latest_meta, generate_image_from_grib, htf, hgs, hgz, hdec, hpv, hsf]⟩⟩
            · right
              exact ⟨⟨renderFailedMsg,
                fun f => by
                  simp [latest_meta, generate_image_from_grib, htf, hgs, hgz, hdec, hpv, hsf]⟩,
                fun f => by
                  simp [latest_meta, generate_image_from_grib, htf, hgs, hgz, hdec, hpv, hsf]⟩

/-- A run leaves no artifact exactly when there was none before and the run
failed. -/
theorem runStep_none_iff (e : Env) (f : Option (List ℕ)) :
    runStep f e = none ↔ (f = none ∧ runOk e = false) := by
  rcases latest_meta_shape e with ⟨⟨m, h1⟩, ⟨ds, h2⟩⟩ | ⟨⟨s, h1⟩, h2⟩
  · have hro : runOk e = true := by unfold runOk; rw [h1 none]
    constructor
    · intro h
      unfold runStep at h
      rw [h2 f] at h
      simp at h
    · rintro ⟨-, h4⟩
      rw [hro] at h4
      simp at h4
  · have hro : runOk e = false := by unfold runOk; rw [h1 none]
    constructor
    · intro h
      unfold runStep at h
      rw [h2 f] at h
      exact ⟨h, hro⟩
    · rintro ⟨h3, -⟩
      unfold runStep
      rw [h2 f]
      exact h3

/-- The artifact is absent after a sequence of runs exactly when it was absent
initially and every run failed. -/
theorem foldl_runStep_none (envs : List Env) :
    ∀ f : Option (List ℕ),
      List.foldl runStep f envs = none ↔ (f = none ∧ ∀ e ∈ envs, runOk e = false) := by
  induction envs with
  | nil => intro f; simp
  | cons e t ih =>
    intro f
    rw [List.foldl_cons, ih (runStep f e)]
    constructor
    · rintro ⟨h1, h2⟩
      rcases (runStep_none_iff e f).mp h1 with ⟨hf, hre⟩
      refine ⟨hf, ?_⟩
      intro x hx
      rcases List.mem_cons.mp hx with h | h
      · rw [h]; exact hre
      · exact h2 x h
    · rintro ⟨h1, h2⟩
      have hre : runOk e = false := h2 e (List.mem_cons_self e t)
      refine ⟨(runStep_none_iff e f).mpr ⟨h1, hre⟩, ?_⟩
      intro x hx
      exact h2 x (List.mem_cons_of_mem e hx)

/-! ## Claim theorems -/

/-- C1: the Frame Locator scans candidate timestamps strictly newest-first
(minute offset ascending) and, within each timestamp, the storage locations in
configured priority order, accepting the first existing hit; hence whenever
any candidate exists, it returns a hit with the smallest minute offset (the
newest existing timestamp) among existing candidates and, among locations
holding that timestamp, the smallest (highest-priority) location index. -/
theorem C1_locator_scan_order (probe : ℕ × ℕ → Bool) (c : ℕ × ℕ)
    (hc : c ∈ scanOrder) (hp : probe c = true) :
    ∃ w, try_fetch_latest_file probe = some w ∧ probe w = true ∧ w ∈ scanOrder ∧
      (∀ d ∈ scanOrder, probe d = true → w.1 ≤ d.1) ∧
      (∀ d ∈ scanOrder, probe d = true → d.1 = w.1 → w.2 ≤ d.2) := by
  cases heq : scanOrder.find? probe with
  | none => exact absurd hp (List.find?_eq_none.mp heq c hc)
  | some w =>
    have hpw : probe w = true := List.find?_some heq
    have hmem : w ∈ scanOrder := List.mem_of_find?_eq_some heq
    have hmin := find_min_of_pairwise scanOrder probe w scanOrder_pairwise heq
    refine ⟨w, heq, hpw, hmem, ?_, ?_⟩
    · intro d hd hpd
      rcases hmin d hd hpd with h | h
      · rw [h]
      · have h' : w.1 < d.1 ∨ (w.1 = d.1 ∧ w.2 < d.2) := h
        rcases h' with h' | ⟨h', -⟩
        · exact Nat.le_of_lt h'
        · exact Nat.le_of_eq h'
    · intro d hd hpd hdw
      rcases hmin d hd hpd with h | h
      · rw [h]
      · have h' : w.1 < d.1 ∨ (w.1 = d.1 ∧ w.2 < d.2) := h
        rcases h' with h' | ⟨-, h'⟩
        · omega
        · exact Nat.le_of_lt h'

/-- C1 witness: with files existing at offsets 4 (base 1) and 6 (base 0) — the
spec's `{T-4, T-6}` example — the locator's result satisfies the newest-first,
priority-order characterization. -/
theorem C1_locator_scan_order_witness :
    ∃ w, try_fetch_latest_file probeW = some w ∧ probeW w = true ∧ w ∈ scanOrder ∧
      (∀ d ∈ scanOrder, probeW d = true → w.1 ≤ d.1) ∧
      (∀ d ∈ scanOrder, probeW d = true → d.1 = w.1 → w.2 ≤ d.2) :=
  C1_locator_scan_order probeW (4, 1) (by decide) (by decide)

/-- C2 (code bug exhibit): the claim says every candidate filename timestamp
lies on a 2-minute boundary (even minute, zero seconds) regardless of the
wall-clock start time.  The code subtracts the offset from the raw
`utcnow()` without truncating it to the cadence grid: starting at epoch
second 1760227260 — a UTC instant whose minute-of-hour is 1 (odd) — every one
of the 120 candidate timestamps has an odd filename minute, so no candidate
lies on the 2-minute grid the archive publishes on. -/
theorem C2_candidate_minute_off_grid :
    ∀ k : Fin 120, fnameMinute (candTimestamp 1760227260 (2 * k.val)) % 2 = 1 := by
  decide

/-- C10: the existence probe counts a candidate as existing iff the HEAD
status is exactly 200 — a located candidate always has status 200, and the
scan is exhausted (returns `none`, without failing) exactly when no candidate
has status 200, regardless of which non-200 statuses (redirects, other 2xx)
occur. -/
theorem C10_probe_exactly_200 (st : ℕ × ℕ → ℕ) :
    (∀ c, try_fetch_latest_file (headOk st) = some c → st c = 200) ∧
    (try_fetch_latest_file (headOk st) = none ↔ ∀ c ∈ scanOrder, st c ≠ 200) := by
  constructor
  · intro c hc
    have h := List.find?_some hc
    simpa [headOk] using h
  · constructor
    · intro h c hc
      have h' := List.find?_eq_none.mp h c hc
      simpa [headOk] using h'
    · intro h
      apply List.find?_eq_none.mpr
      intro c hc
      simp only [headOk, beq_iff_eq]
      exact h c hc

/-- C10 witness: with a 302 at the first candidate, a 204 at the second, and a
200 only at `(4,1)`, the located candidate has status exactly 200. -/
theorem C10_probe_exactly_200_witness : stW (4, 1) = 200 :=
  (C10_probe_exactly_200 stW).1 (4, 1) (by decide)

/-- C5: on a dataset with at least one field, field selection returns the
first field (in natural order) whose name contains "reflect"
case-insensitively, and when no field name contains it, the first field in
natural order. -/
theorem C5_field_selection_first_match (ds : Dataset) (h : ds.data_vars ≠ []) :
    ∃ v, pick_reflectivity_var ds = some v ∧
      ((∃ l₁ l₂, ds.data_vars = l₁ ++ v :: l₂ ∧ hasReflect v = true ∧
          ∀ u ∈ l₁, hasReflect u = false) ∨
        ((∀ u ∈ ds.data_vars, hasReflect u = false) ∧ ds.data_vars.head? = some v)) := by
  cases heq : ds.data_vars.find? hasReflect with
  | some v =>
    refine ⟨v, ?_, Or.inl (find_first_split ds.data_vars hasReflect v heq)⟩
    simp [pick_reflectivity_var, heq]
  | none =>
    cases hd : ds.data_vars with
    | nil => exact absurd hd h
    | cons a t =>
      rw [hd] at heq
      refine ⟨a, ?_, Or.inr ⟨?_, ?_⟩⟩
      · simp [pick_reflectivity_var, hd, heq]
      · intro u hu
        exact Bool.eq_false_iff.mpr (List.find?_eq_none.mp heq u hu)
      · rfl

/-- C5 witness: on `["Temp", "MockReflectivity", "Other"]` the selection
characterization holds (the match is the second field). -/
theorem C5_field_selection_first_match_witness :
    ∃ v, pick_reflectivity_var dsVars = some v ∧
      ((∃ l₁ l₂, dsVars.data_vars = l₁ ++ v :: l₂ ∧ hasReflect v = true ∧
          ∀ u ∈ l₁, hasReflect u = false) ∨
        ((∀ u ∈ dsVars.data_vars, hasReflect u = false) ∧
          dsVars.data_vars.head? = some v)) :=
  C5_field_selection_first_match dsVars (by decide)

/-- C3 counterexample: the claim "the result equals the fallback iff no
recognized coordinate names are present" fails on a dataset whose real
resolved coordinates coincidentally span exactly (25, -125, 50, -65): both
axes resolve, yet the computed bounds equal the fallback value. -/
theorem C3_fallback_iff_counterexample :
    ¬ (get_bounds_from_dataset dsCoincide = fallbackBounds ↔
        (lookupFirst dsCoincide.coords latAliases = none ∨
          lookupFirst dsCoincide.coords lonAliases = none)) := by
  decide

/-- C3 (amended): the Resolver returns the fallback GeoBounds
(25, -125, 50, -65) whenever no recognized latitude name or no recognized
longitude name is present in the dataset's coordinates; when both axes
resolve, the result is computed from the resolved arrays as
(min lat, min lon, max lat, max lon) — which can still coincide with the
fallback value. -/
theorem C3_fallback_amended (ds : Dataset) :
    ((lookupFirst ds.coords latAliases = none ∨
        lookupFirst ds.coords lonAliases = none) →
      get_bounds_from_dataset ds = fallbackBounds) ∧
    (∀ la lo, lookupFirst ds.coords latAliases = some la →
      lookupFirst ds.coords lonAliases = some lo →
      get_bounds_from_dataset ds = [npMin la, npMin lo, npMax la, npMax lo]) := by
  constructor
  · intro h
    rcases h with h | h
    · simp [get_bounds_from_dataset, h]
    · cases hla : lookupFirst ds.coords latAliases <;>
        simp [get_bounds_from_dataset, hla, h]
  · intro la lo hla hlo
    simp [get_bounds_from_dataset, hla, hlo]

/-- C3 witness: a dataset carrying a field but no coordinates takes the
fallback. -/
theorem C3_fallback_amended_witness :
    get_bounds_from_dataset dsNoCoords = fallbackBounds :=
  (C3_fallback_amended dsNoCoords).1 (Or.inl rfl)

/-- C4: whenever both axes resolve to (nonempty) real coordinate arrays, the
returned GeoBounds equal (min lat, min lon, max lat, max lon) over those
arrays, and satisfy south ≤ north and west ≤ east. -/
theorem C4_bounds_minmax_ordered (ds : Dataset) (la lo : List ℚ)
    (hla : lookupFirst ds.coords latAliases = some la)
    (hlo : lookupFirst ds.coords lonAliases = some lo)
    (h₁ : la ≠ []) (h₂ : lo ≠ []) :
    get_bounds_from_dataset ds = [npMin la, npMin lo, npMax la, npMax lo] ∧
    npMin la ≤ npMax la ∧ npMin lo ≤ npMax lo := by
  refine ⟨?_, npMin_le_npMax la h₁, npMin_le_npMax lo h₂⟩
  simp [get_bounds_from_dataset, hla, hlo]

/-- C4 witness: on real coordinates [30,40] × [-100,-90] the bounds are the
min/max box and are ordered. -/
theorem C4_bounds_minmax_ordered_witness :
    get_bounds_from_dataset dsGood =
      [npMin [30, 40], npMin [-100, -90], npMax [30, 40], npMax [-100, -90]] ∧
    npMin [(30 : ℚ), 40] ≤ npMax [30, 40] ∧
    npMin [(-100 : ℚ), -90] ≤ npMax [-100, -90] :=
  C4_bounds_minmax_ordered dsGood [30, 40] [-100, -90] rfl rfl
    (by decide) (by decide)

/-- C6: a pipeline run that fails at any step — locate, fetch, decompress,
decode, resolve or render — returns its error with the previously persisted
RenderedImage exactly as it was: no failure is partially committed to the
durable artifact. -/
theorem C6_failure_preserves_artifact (env : Env) (file : Option (List ℕ))
    (e : String) (f' : Option (List ℕ))
    (h : latest_meta env file = (Except.error e, f')) : f' = file := by
  rcases latest_meta_shape env with ⟨⟨m, h1⟩, -⟩ | ⟨-, h2⟩
  · have hm := h1 file
    rw [h] at hm
    simp at hm
  · have hm := h2 file
    rw [h] at hm
    exact hm

/-- C6 witness: a run that fails (here: nothing discoverable) leaves the
previously rendered artifact `[1]` untouched. -/
theorem C6_failure_preserves_artifact_witness :
    (latest_meta envFail (some [1])).2 = some [1] :=
  C6_failure_preserves_artifact envFail (some [1]) notFoundMsg
    (latest_meta envFail (some [1])).2 (by rfl)

/-- C7: when every candidate in the entire time×location scan is absent (no
HEAD status is 200), the handler reports the NotFound error of line 80, and
that outcome is distinguishable from a retrieval failure on a located URL: the
FetchFailed message differs from the NotFound message for every HTTP
status. -/
theorem C7_notfound_distinguishable (env : Env) (file : Option (List ℕ))
    (h : ∀ c ∈ scanOrder, env.headStatus c ≠ 200) :
    (latest_meta env file).1 = Except.error notFoundMsg ∧
    ∀ s : ℕ, fetchFailedMsg s ≠ notFoundMsg := by
  refine ⟨?_, fetchFailedMsg_ne_notFound⟩
  have hnone : try_fetch_latest_file (headOk env.headStatus) = none := by
    apply List.find?_eq_none.mpr
    intro c hc
    simp only [headOk, beq_iff_eq]
    exact h c hc
  simp [latest_meta, hnone]

/-- C7 witness: with HEAD returning 404 everywhere, the run reports the
NotFound error, and no FetchFailed message equals it. -/
theorem C7_notfound_distinguishable_witness :
    (latest_meta envFail none).1 = Except.error notFoundMsg ∧
    ∀ s : ℕ, fetchFailedMsg s ≠ notFoundMsg :=
  C7_notfound_distinguishable envFail none
    (by set_option maxRecDepth 8192 in decide)

/-- C8: the value-to-color mapping is clamped to the fixed domain [-32, 75] —
any two finite values at or below -32 render as the same pixel color as the
-32 endpoint, and any two at or above 75 as the 75 endpoint, for every
colormap; out-of-range values are clamped, never wrapped and never an
error. -/
theorem C8_clamp_endpoint_colors {γ : Type} (cmap : ℚ → γ) (x y : ℚ) :
    (x ≤ vminQ → y ≤ vminQ →
      pixelColor cmap x = pixelColor cmap vminQ ∧
      pixelColor cmap y = pixelColor cmap vminQ) ∧
    (vmaxQ ≤ x → vmaxQ ≤ y →
      pixelColor cmap x = pixelColor cmap vmaxQ ∧
      pixelColor cmap y = pixelColor cmap vmaxQ) := by
  constructor
  · intro hx hy
    unfold pixelColor
    rw [normClamp_below x hx, normClamp_below y hy, normClamp_below vminQ le_rfl]
    exact ⟨rfl, rfl⟩
  · intro hx hy
    unfold pixelColor
    rw [normClamp_above x hx, normClamp_above y hy, normClamp_above vmaxQ le_rfl]
    exact ⟨rfl, rfl⟩

/-- C8 witness: -100 and -33 dBZ-like values both render as the -32 endpoint
color (identity colormap). -/
theorem C8_clamp_endpoint_colors_witness :
    pixelColor (fun t => t) (-100 : ℚ) = pixelColor (fun t => t) vminQ ∧
    pixelColor (fun t => t) (-33 : ℚ) = pixelColor (fun t => t) vminQ :=
  (C8_clamp_endpoint_colors (fun t => t) (-100) (-33)).1
    (by norm_num [vminQ]) (by norm_num [vminQ])

/-- C9: the artifact-fetch operation returns the "not yet generated" error
exactly when no pipeline run since process start has succeeded (the raster
file does not exist); whenever the file exists it returns its bytes; and "not
yet generated" is its only error. -/
theorem C9_artifact_fetch (envs : List Env) :
    (latest_image (runAll envs) = Except.error notYetMsg ↔
      ∀ e ∈ envs, runOk e = false) ∧
    (∀ b, runAll envs = some b → latest_image (runAll envs) = Except.ok b) ∧
    (∀ f s, latest_image f = Except.error s → s = notYetMsg) := by
  refine ⟨⟨?_, ?_⟩, ?_, ?_⟩
  · intro h
    cases hr : runAll envs with
    | none => exact ((foldl_runStep_none envs none).mp hr).2
    | some b =>
      rw [hr] at h
      simp [latest_image] at h
  · intro h
    have hr : runAll envs = none := (foldl_runStep_none envs none).mpr ⟨rfl, h⟩
    rw [hr]
    rfl
  · intro b hb
    rw [hb]
    rfl
  · intro f s hfs
    cases f with
    | none =>
      simp [latest_image] at hfs
      exact hfs.symm
    | some b => simp [latest_image] at hfs

/-- C9 witness: after one successful run the artifact fetch returns the
rendered bytes. -/
theorem C9_artifact_fetch_witness :
    latest_image (runAll [envGood]) = Except.ok [137, 80] :=
  (C9_artifact_fetch [envGood]).2.1 [137, 80] (by rfl)
